import Mathlib

/-!
Verification of the kvrocks2redis bootstrap (`src/tools/kvrocks2redis/main.cc`)
and, where the pipeline code itself is outside the sources at hand, a model of
the Sync orchestrator's resume behaviour written from the specification.

The process bootstrap is embedded shallowly: `mainRun` maps an environment
(command-line parse results, configuration load outcome, fork/setsid outcomes,
storage-open outcome) to the ordered trace of observable events that `main`
performs, paired with the process exit code.
-/

namespace Kvrocks2redis

/-- `Kvrocks2redis::Config`, the fields `main.cc` reads. -/
structure Config where
  loglevel : Nat
  dir : String
  daemonize : Bool
  requirepass : String
  db_name : String
  db_dir : String
  max_open_files : Nat
  deriving DecidableEq, Repr

end Kvrocks2redis

/-- The engine `Config` that `main` fills from the kvrocks2redis config
before constructing `Engine::Storage`. -/
structure KvrocksConfig where
  requirepass : String
  db_name : String
  db_dir : String
  max_open_files : Nat
  deriving DecidableEq, Repr

/-- `main` copies these four fields from the loaded config into the engine
config (`main.cc` lines 128-132). -/
def buildKvrocksConfig (c : Kvrocks2redis.Config) : KvrocksConfig :=
  { requirepass := c.requirepass
    db_name := c.db_name
    db_dir := c.db_dir
    max_open_files := c.max_open_files }

/-- Result of one `getopt` step over `"c:p:hv"`: the recognised options with
their arguments, or an unrecognised option (getopt's `?`, hitting `default:`). -/
inductive GetoptResult where
  | optC (arg : String)
  | optP (arg : String)
  | optH
  | optV
  | unrecognized
  deriving DecidableEq, Repr

/-- The `Options` struct of `main.cc`, with its default member values. -/
structure Options where
  conf_file : String := "../kvrocks2redis.conf"
  pid_file : String := "/var/run/kvrocks2redis.pid"
  show_usage : Bool := false
  deriving DecidableEq, Repr

/-- The two ways `parseCommandLineOptions` terminates the process instead of
returning: `exit(0)` on `-v`, and `usage()` (which prints and `exit(0)`s) on an
unrecognised option. -/
inductive ParseExit where
  | usageExit
  | versionExit
  deriving DecidableEq, Repr

/-- The `while ((ch = getopt(...)) != -1)` loop body of
`parseCommandLineOptions`. -/
def parseLoop : List GetoptResult → Options → Except ParseExit Options
  | [], opts => .ok opts
  | .optC a :: rest, opts => parseLoop rest { opts with conf_file := a }
  | .optP a :: rest, opts => parseLoop rest { opts with pid_file := a }
  | .optH :: rest, opts => parseLoop rest { opts with show_usage := true }
  | .optV :: _, _ => .error .versionExit
  | .unrecognized :: _, _ => .error .usageExit

/-- `parseCommandLineOptions`: runs the getopt loop starting from a
default-constructed `Options`. -/
def parseCommandLineOptions (args : List GetoptResult) : Except ParseExit Options :=
  parseLoop args {}

/-- glog flags set by `initGoogleLog`. -/
structure GlogFlags where
  minloglevel : Nat
  max_log_size : Nat
  logbufsecs : Nat
  log_dir : String
  deriving DecidableEq, Repr

/-- `initGoogleLog`: sets the glog flags from the loaded configuration
(`main.cc` lines 62-67). -/
def initGoogleLog (config : Kvrocks2redis.Config) : GlogFlags :=
  { minloglevel := config.loglevel
    max_log_size := 100
    logbufsecs := 0
    log_dir := config.dir }

/-- Status as used by `createPidFile`. -/
inductive Status where
  | ok
  | notOk (msg : String)
  deriving DecidableEq, Repr

/-- `createPidFile`: opens the path with `O_RDWR | O_CREAT | O_EXCL`; on
failure returns `NotOK(strerror(errno))`, otherwise writes the pid and
returns OK.  `openExcl` is the outcome of the exclusive-create `open` call. -/
def createPidFile (openExcl : Except String Nat) : Status :=
  match openExcl with
  | .error e => .notOk e
  | .ok _ => .ok

/-- Signals `main` installs handlers for. -/
inductive Sig where
  | sigpipe
  | sigint
  | sigterm
  deriving DecidableEq, Repr

/-- Handler disposition passed to `signal`. -/
inductive Disposition where
  | ignore
  | custom
  deriving DecidableEq, Repr

/-- Observable events of `main`, in the order the source performs them. -/
inductive Event where
  | initGoogleLogging
  | setUsageMessage
  | evthreadUsePthreads
  | setSignal (s : Sig) (d : Disposition)
  | printVersion
  | printUsage
  | loadConfig (path : String)
  | printConfigLoadError (msg : String)
  | initLog (minloglevel : Nat) (dir : String)
  | forkCall
  | umaskCall
  | setsidCall
  | closeStdFds
  | logError (msg : String)
  | openForReadOnly
  | openReadWrite
  | constructWriter
  | constructParser
  | constructSync
  | assignHupHandler
  | createPid (path : String)
  | syncStart
  deriving DecidableEq, Repr

/-- Outcome of the `fork()` call inside `daemonize`. -/
inductive ForkResult where
  | ffail
  | parent
  | child
  deriving DecidableEq, Repr

/-- `daemonize()` (`main.cc` lines 84-102): fork; on failure log and
`exit(1)`; the parent `exit(EXIT_SUCCESS)`; the child calls `umask(0)` and
`setsid()`, logging and `exit(1)`ing if `setsid` fails, then closes
stdin/stdout/stderr.  Returns the events plus `some code` when the call does
not return (it exits), `none` when it returns to `main`. -/
def daemonizeRun : ForkResult → Bool → List Event × Option Nat
  | .ffail, _ => ([.forkCall, .logError "Failed to fork the process"], some 1)
  | .parent, _ => ([.forkCall], some 0)
  | .child, true => ([.forkCall, .umaskCall, .setsidCall, .closeStdFds], none)
  | .child, false => ([.forkCall, .umaskCall, .setsidCall, .logError "Failed to setsid"], some 1)

/-- The nondeterministic inputs `main` consumes from the outside world. -/
structure Env where
  args : List GetoptResult
  configLoad : Except String Kvrocks2redis.Config
  forkResult : ForkResult
  setsidOk : Bool
  openResult : Except String Unit
  deriving Repr

/-- The fixed opening sequence of `main` (`main.cc` lines 104-113): glog
init, gflags usage message, libevent threads, `signal(SIGPIPE, SIG_IGN)`,
`signal(SIGINT/SIGTERM, signal_handler)`, version banner. -/
def preEvents : List Event :=
  [.initGoogleLogging, .setUsageMessage, .evthreadUsePthreads,
   .setSignal .sigpipe .ignore, .setSignal .sigint .custom,
   .setSignal .sigterm .custom, .printVersion]

/-- `main` after the fixed opening sequence: parse options (possibly exiting
with 0), show usage on `-h`, load the config (exiting 1 with a diagnostic on
failure), set glog flags, optionally daemonize, open the storage read-only
(exiting 1 with a log message on failure), construct writer/parser/sync,
install the hup handler, run `sync.Start()`, and return 0. -/
def mainBody (env : Env) : List Event × Nat :=
  match parseCommandLineOptions env.args with
  | .error .versionExit => ([], 0)
  | .error .usageExit => ([.printUsage], 0)
  | .ok opts =>
    if opts.show_usage then ([.printUsage], 0)
    else
      match env.configLoad with
      | .error msg => ([.loadConfig opts.conf_file, .printConfigLoadError msg], 1)
      | .ok config =>
        let evs0 : List Event := [.loadConfig opts.conf_file, .initLog config.loglevel config.dir]
        match (if config.daemonize then daemonizeRun env.forkResult env.setsidOk
               else ([], none)) with
        | (devs, some code) => (evs0 ++ devs, code)
        | (devs, none) =>
          match env.openResult with
          | .error msg =>
            (evs0 ++ devs ++ [.openForReadOnly, .logError ("Failed to open: " ++ msg)], 1)
          | .ok _ =>
            (evs0 ++ devs ++ [.openForReadOnly, .constructWriter, .constructParser,
                              .constructSync, .assignHupHandler, .syncStart], 0)

/-- `main`: the fixed opening sequence followed by the body; second component
is the process exit code. -/
def mainRun (env : Env) : List Event × Nat :=
  ((preEvents ++ (mainBody env).1), (mainBody env).2)

/-- Observable actions of the shutdown closure / signal handler. -/
inductive HEvent where
  | queryIsStopped
  | logInfo (msg : String)
  | stopSync
  | removePid (path : String)
  deriving DecidableEq, Repr

/-- The shutdown closure assigned to `hup_handler` (`main.cc` lines 145-151):
query `sync.IsStopped()`; only when not stopped, log "Bye Bye", call
`sync.Stop()` and remove the pid file. -/
def hupHandlerRun (stopped : Bool) (pidFile : String) : List HEvent :=
  if stopped then [.queryIsStopped]
  else [.queryIsStopped, .logInfo "Bye Bye", .stopSync, .removePid pidFile]

/-- `signal_handler` (`main.cc` lines 24-34): invokes the global
`hup_handler` only when it is non-empty (`if (hup_handler) hup_handler();`).
`assigned` is whether the closure has been assigned yet. -/
def signalHandlerRun (assigned : Bool) (stopped : Bool) (pidFile : String) : List HEvent :=
  if assigned then hupHandlerRun stopped pidFile else []

/-- Modelled from the spec: a raw write batch of the change log, carrying its
sequence number and the logical operations decoded from it.  The Sync
orchestrator and Change Reader sources (`sync.cc`, `parser.cc`) are not among
the sources at hand; only their caller `main.cc` is. -/
structure RawWriteBatch where
  sequence : Nat
  ops : List String
  deriving DecidableEq, Repr

/-- Modelled from the spec: resuming from a persisted checkpoint at sequence
`S`, the pipeline opens a change-log cursor past `S` and delivers exactly the
batches of the log with sequence greater than `S`, in log order. -/
def resumeDeliver (S : Nat) (log : List RawWriteBatch) : List RawWriteBatch :=
  log.filter (fun b => decide (S < b.sequence))

/-- Modelled from the spec: with `k` batches of the log already applied at
crash time (the applied batches form a prefix of the log), the re-delivered
already-applied batches after resuming from checkpoint `S` are the applied
batches that `resumeDeliver` emits again. -/
def redelivered (S k : Nat) (log : List RawWriteBatch) : List RawWriteBatch :=
  (log.take k).filter (fun b => decide (S < b.sequence))

/-- A sample loaded configuration, for evaluating the model concretely. -/
def sampleConfig : Kvrocks2redis.Config :=
  { loglevel := 0, dir := "/tmp/kvrocks2redis", daemonize := false,
    requirepass := "", db_name := "change.me.db", db_dir := "/tmp/db",
    max_open_files := 256 }

/-- Sample configuration with the daemonize flag set. -/
def daemonConfig : Kvrocks2redis.Config :=
  { sampleConfig with daemonize := true }

/-- An environment in which startup fully succeeds. -/
def cleanEnv : Env :=
  { args := [], configLoad := .ok sampleConfig, forkResult := .child,
    setsidOk := true, openResult := .ok () }

/-- An environment whose configuration file fails to load. -/
def badConfEnv : Env :=
  { args := [], configLoad := .error "no such file", forkResult := .child,
    setsidOk := true, openResult := .ok () }

/-- An environment in which the storage engine cannot be opened. -/
def badOpenEnv : Env :=
  { args := [], configLoad := .ok sampleConfig, forkResult := .child,
    setsidOk := true, openResult := .error "IO error" }

/-- An environment invoked with an unrecognized command-line option. -/
def badOptEnv : Env :=
  { args := [.unrecognized], configLoad := .ok sampleConfig, forkResult := .child,
    setsidOk := true, openResult := .ok () }

/-- An environment in which startup succeeds with the daemonize flag set. -/
def daemonEnv : Env :=
  { args := [], configLoad := .ok daemonConfig, forkResult := .child,
    setsidOk := true, openResult := .ok () }

/-- A sample change log for the resume model: three batches at sequences
5, 7 and 9. -/
def sampleLog : List RawWriteBatch :=
  [⟨5, ["SET a 1"]⟩, ⟨7, ["SET b 2"]⟩, ⟨9, ["DEL a"]⟩]

/-- C10: if a SIGINT or SIGTERM arrives after the handlers are installed but
before the shutdown closure is assigned to the global `hup_handler`, the
handler performs no action at all. -/
theorem signal_handler_noop_before_assignment :
    ∀ (stopped : Bool) (pidFile : String), signalHandlerRun false stopped pidFile = [] := by
  intro stopped pidFile
  rfl

/-- C3: once the shutdown closure is installed, a delivered SIGINT/SIGTERM
runs it; the closure queries the non-blocking `IsStopped()` first, and calls
`Stop()` and removes the pid file exactly when the orchestrator is not
already stopped; on an already-stopped orchestrator it does nothing further. -/
theorem hup_handler_stop_and_remove_pid :
    ∀ (stopped : Bool) (pidFile : String),
      signalHandlerRun true stopped pidFile = hupHandlerRun stopped pidFile ∧
      (hupHandlerRun stopped pidFile).head? = some .queryIsStopped ∧
      (HEvent.stopSync ∈ hupHandlerRun stopped pidFile ↔ stopped = false) ∧
      (HEvent.removePid pidFile ∈ hupHandlerRun stopped pidFile ↔ stopped = false) ∧
      (stopped = true → hupHandlerRun stopped pidFile = [.queryIsStopped]) := by
  intro stopped pidFile
  cases stopped <;> simp [signalHandlerRun, hupHandlerRun]

/-- C3 witness: at concrete inputs, the not-stopped run stops and removes the
pid file, and the stopped run only queries. -/
theorem hup_handler_stop_and_remove_pid_witness :
    HEvent.stopSync ∈ hupHandlerRun false "/var/run/kvrocks2redis.pid" ∧
    hupHandlerRun true "/var/run/kvrocks2redis.pid" = [.queryIsStopped] :=
  ⟨((hup_handler_stop_and_remove_pid false "/var/run/kvrocks2redis.pid").2.2.1).mpr rfl,
   (hup_handler_stop_and_remove_pid true "/var/run/kvrocks2redis.pid").2.2.2.2 rfl⟩

/-- C8: `signal(SIGPIPE, SIG_IGN)` happens in `main`'s opening sequence,
before the storage is opened, before the writer exists and before the
pipeline starts: no connection work precedes it in any execution. -/
theorem sigpipe_ignored_before_connection_work :
    ∀ env : Env, ∃ l₁ l₂,
      (mainRun env).1 = l₁ ++ Event.setSignal .sigpipe .ignore :: l₂ ∧
      Event.constructWriter ∉ l₁ ∧ Event.syncStart ∉ l₁ ∧ Event.openForReadOnly ∉ l₁ := by
  intro env
  exact ⟨[.initGoogleLogging, .setUsageMessage, .evthreadUsePthreads],
         [.setSignal .sigint .custom, .setSignal .sigterm .custom, .printVersion]
           ++ (mainBody env).1,
         by simp [mainRun, preEvents], by simp, by simp, by simp⟩

/-- C9: `main` never creates the pid file — no execution's trace contains a
`createPid` event (`createPidFile` is never called) — while the shutdown
closure still removes the pid file at the configured path when the
orchestrator is not stopped. -/
theorem pid_file_never_created :
    ∀ (env : Env) (path : String),
      Event.createPid path ∉ (mainRun env).1 ∧
      HEvent.removePid path ∈ hupHandlerRun false path := by
  intro env path
  refine ⟨?_, by simp [hupHandlerRun]⟩
  rcases hp : parseCommandLineOptions env.args with pe | opts
  · cases pe <;> simp [mainRun, mainBody, hp, preEvents]
  · rcases hc : env.configLoad with msg | config
    · by_cases hu : opts.show_usage <;> simp [mainRun, mainBody, hp, hc, hu, preEvents]
    · by_cases hu : opts.show_usage
      · simp [mainRun, mainBody, hp, hu, preEvents]
      · cases hd : config.daemonize
        · cases ho : env.openResult <;>
            simp [mainRun, mainBody, hp, hc, hu, hd, ho, preEvents]
        · cases hf : env.forkResult <;> cases hs : env.setsidOk <;>
            cases ho : env.openResult <;>
            simp [mainRun, mainBody, hp, hc, hu, hd, hf, hs, ho, daemonizeRun, preEvents]

/-- C5: whenever an execution reaches the pipeline (its trace contains
`syncStart`), the storage engine is opened exactly once, via the read-only
open, before the writer, the decoder and the orchestrator are constructed;
and no execution ever opens the engine read-write. -/
theorem storage_opened_once_readonly_before_pipeline :
    ∀ env : Env,
      Event.openReadWrite ∉ (mainRun env).1 ∧
      (Event.syncStart ∈ (mainRun env).1 →
        ∃ l₁ l₂, (mainRun env).1 = l₁ ++ Event.openForReadOnly :: l₂ ∧
          Event.openForReadOnly ∉ l₁ ∧ Event.openForReadOnly ∉ l₂ ∧
          Event.constructWriter ∉ l₁ ∧ Event.constructParser ∉ l₁ ∧
          Event.constructSync ∉ l₁) := by
  intro env
  rcases hp : parseCommandLineOptions env.args with pe | opts
  · cases pe <;> simp [mainRun, mainBody, hp, preEvents]
  · by_cases hu : opts.show_usage
    · simp [mainRun, mainBody, hp, hu, preEvents]
    · rcases hc : env.configLoad with msg | config
      · simp [mainRun, mainBody, hp, hu, hc, preEvents]
      · cases hd : config.daemonize
        · rcases ho : env.openResult with msg | u
          · simp [mainRun, mainBody, hp, hu, hc, hd, ho, preEvents]
          · refine ⟨by simp [mainRun, mainBody, hp, hu, hc, hd, ho, preEvents], fun _ => ?_⟩
            refine ⟨preEvents ++ [.loadConfig opts.conf_file,
                      .initLog config.loglevel config.dir],
                    [.constructWriter, .constructParser, .constructSync,
                     .assignHupHandler, .syncStart],
                    by simp [mainRun, mainBody, hp, hu, hc, hd, ho, preEvents],
                    by simp [preEvents], by simp, by simp [preEvents],
                    by simp [preEvents], by simp [preEvents]⟩
        · cases hf : env.forkResult
          · simp [mainRun, mainBody, hp, hu, hc, hd, hf, daemonizeRun, preEvents]
          · simp [mainRun, mainBody, hp, hu, hc, hd, hf, daemonizeRun, preEvents]
          · cases hs : env.setsidOk
            · simp [mainRun, mainBody, hp, hu, hc, hd, hf, hs, daemonizeRun, preEvents]
            · rcases ho : env.openResult with msg | u
              · simp [mainRun, mainBody, hp, hu, hc, hd, hf, hs, ho, daemonizeRun, preEvents]
              · refine ⟨by simp [mainRun, mainBody, hp, hu, hc, hd, hf, hs, ho,
                               daemonizeRun, preEvents], fun _ => ?_⟩
                refine ⟨preEvents ++ [.loadConfig opts.conf_file,
                          .initLog config.loglevel config.dir,
                          .forkCall, .umaskCall, .setsidCall, .closeStdFds],
                        [.constructWriter, .constructParser, .constructSync,
                         .assignHupHandler, .syncStart],
                        by simp [mainRun, mainBody, hp, hu, hc, hd, hf, hs, ho,
                                 daemonizeRun, preEvents],
                        by simp [preEvents], by simp, by simp [preEvents],
                        by simp [preEvents], by simp [preEvents]⟩

/-- C5 witness: in the clean environment the pipeline is reached, the
read-only open occurs exactly once before construction, and no read-write
open occurs. -/
theorem storage_opened_once_readonly_before_pipeline_witness :
    ∃ l₁ l₂, (mainRun cleanEnv).1 = l₁ ++ Event.openForReadOnly :: l₂ ∧
      Event.openForReadOnly ∉ l₁ ∧ Event.openForReadOnly ∉ l₂ ∧
      Event.constructWriter ∉ l₁ ∧ Event.constructParser ∉ l₁ ∧
      Event.constructSync ∉ l₁ :=
  (storage_opened_once_readonly_before_pipeline cleanEnv).2 (by decide)

/-- C7: for every successfully loaded configuration, `initGoogleLog` sets the
minimum log level and log directory from the config's `loglevel` and `dir`
fields, and this happens after the config load and before any fork
(daemonization) or storage open. -/
theorem glog_configured_after_load_before_daemon_and_open :
    ∀ (env : Env) (opts : Options) (config : Kvrocks2redis.Config),
      parseCommandLineOptions env.args = .ok opts →
      opts.show_usage = false →
      env.configLoad = .ok config →
      (initGoogleLog config).minloglevel = config.loglevel ∧
      (initGoogleLog config).log_dir = config.dir ∧
      ∃ l₁ l₂, (mainRun env).1 = l₁ ++ Event.initLog config.loglevel config.dir :: l₂ ∧
        Event.loadConfig opts.conf_file ∈ l₁ ∧
        Event.forkCall ∉ l₁ ∧ Event.openForReadOnly ∉ l₁ := by
  intro env opts config hp hu hc
  refine ⟨rfl, rfl, ?_⟩
  have h : ∃ t, (mainBody env).1
      = Event.loadConfig opts.conf_file :: Event.initLog config.loglevel config.dir :: t := by
    rcases hm : (if config.daemonize then daemonizeRun env.forkResult env.setsidOk
                 else ([], none)) with ⟨devs, dexit⟩
    cases dexit
    · rcases ho : env.openResult with msg | u
      · exact ⟨devs ++ [Event.openForReadOnly,
                 Event.logError ("Failed to open: " ++ msg)],
               by simp [mainBody, hp, hu, hc, hm, ho]⟩
      · exact ⟨devs ++ [Event.openForReadOnly, Event.constructWriter,
                 Event.constructParser, Event.constructSync,
                 Event.assignHupHandler, Event.syncStart],
               by simp [mainBody, hp, hu, hc, hm, ho]⟩
    · exact ⟨devs, by simp [mainBody, hp, hu, hc, hm]⟩
  obtain ⟨t, ht⟩ := h
  exact ⟨preEvents ++ [Event.loadConfig opts.conf_file], t,
    by simp [mainRun, ht, preEvents],
    by simp, by simp [preEvents], by simp [preEvents]⟩

/-- C7 witness: instantiated in the clean environment with the sample
configuration. -/
theorem glog_configured_after_load_before_daemon_and_open_witness :
    (initGoogleLog sampleConfig).minloglevel = sampleConfig.loglevel ∧
    (initGoogleLog sampleConfig).log_dir = sampleConfig.dir ∧
    ∃ l₁ l₂, (mainRun cleanEnv).1
        = l₁ ++ Event.initLog sampleConfig.loglevel sampleConfig.dir :: l₂ ∧
      Event.loadConfig ({} : Options).conf_file ∈ l₁ ∧
      Event.forkCall ∉ l₁ ∧ Event.openForReadOnly ∉ l₁ :=
  glog_configured_after_load_before_daemon_and_open cleanEnv {} sampleConfig rfl rfl rfl

/-- C6: with a successfully loaded configuration, daemonization happens
exactly when the daemonize flag is set; the parent exits 0 before the engine
is opened; fork failure logs and exits 1; the child calls setsid and closes
the standard file descriptors, with a setsid failure logged and exiting 1;
and whenever the engine is opened under the daemonize flag, the fork happened
first. -/
theorem daemonize_iff_flag :
    ∀ (env : Env) (opts : Options) (config : Kvrocks2redis.Config),
      parseCommandLineOptions env.args = .ok opts →
      opts.show_usage = false →
      env.configLoad = .ok config →
      ((Event.forkCall ∈ (mainRun env).1) ↔ config.daemonize = true) ∧
      (config.daemonize = true → env.forkResult = .parent →
        (mainRun env).2 = 0 ∧ Event.openForReadOnly ∉ (mainRun env).1) ∧
      (config.daemonize = true → env.forkResult = .ffail →
        (mainRun env).2 = 1 ∧ Event.logError "Failed to fork the process" ∈ (mainRun env).1 ∧
        Event.openForReadOnly ∉ (mainRun env).1) ∧
      (config.daemonize = true → env.forkResult = .child → env.setsidOk = false →
        (mainRun env).2 = 1 ∧ Event.logError "Failed to setsid" ∈ (mainRun env).1 ∧
        Event.setsidCall ∈ (mainRun env).1 ∧ Event.openForReadOnly ∉ (mainRun env).1) ∧
      (config.daemonize = true → env.forkResult = .child → env.setsidOk = true →
        Event.setsidCall ∈ (mainRun env).1 ∧ Event.closeStdFds ∈ (mainRun env).1) ∧
      (config.daemonize = true → Event.openForReadOnly ∈ (mainRun env).1 →
        ∃ l₁ l₂, (mainRun env).1 = l₁ ++ l₂ ∧ Event.forkCall ∈ l₁ ∧
          Event.openForReadOnly ∉ l₁) := by
  intro env opts config hp hu hc
  refine ⟨?_, ?_, ?_, ?_, ?_, ?_⟩
  · cases hd : config.daemonize
    · rcases ho : env.openResult with msg | u <;>
        simp [mainRun, mainBody, hp, hu, hc, hd, ho, preEvents]
    · cases hf : env.forkResult
      · simp [mainRun, mainBody, hp, hu, hc, hd, hf, daemonizeRun, preEvents]
      · simp [mainRun, mainBody, hp, hu, hc, hd, hf, daemonizeRun, preEvents]
      · cases hs : env.setsidOk
        · simp [mainRun, mainBody, hp, hu, hc, hd, hf, hs, daemonizeRun, preEvents]
        · rcases ho : env.openResult with msg | u <;>
            simp [mainRun, mainBody, hp, hu, hc, hd, hf, hs, ho, daemonizeRun, preEvents]
  · intro hd hf
    simp [mainRun, mainBody, hp, hu, hc, hd, hf, daemonizeRun, preEvents]
  · intro hd hf
    simp [mainRun, mainBody, hp, hu, hc, hd, hf, daemonizeRun, preEvents]
  · intro hd hf hs
    simp [mainRun, mainBody, hp, hu, hc, hd, hf, hs, daemonizeRun, preEvents]
  · intro hd hf hs
    rcases ho : env.openResult with msg | u <;>
      simp [mainRun, mainBody, hp, hu, hc, hd, hf, hs, ho, daemonizeRun, preEvents]
  · intro hd hopen
    cases hf : env.forkResult
    · simp [mainRun, mainBody, hp, hu, hc, hd, hf, daemonizeRun, preEvents] at hopen
    · simp [mainRun, mainBody, hp, hu, hc, hd, hf, daemonizeRun, preEvents] at hopen
    · cases hs : env.setsidOk
      · simp [mainRun, mainBody, hp, hu, hc, hd, hf, hs, daemonizeRun, preEvents] at hopen
      · refine ⟨preEvents ++ [.loadConfig opts.conf_file,
                  .initLog config.loglevel config.dir,
                  .forkCall, .umaskCall, .setsidCall, .closeStdFds],
                (mainRun env).1.drop (preEvents.length + 6), ?_, by simp [preEvents],
                by simp [preEvents]⟩
        rcases ho : env.openResult with msg | u <;>
          simp [mainRun, mainBody, hp, hu, hc, hd, hf, hs, ho, daemonizeRun, preEvents]

/-- C6 witness: in the daemonizing environment (flag set, child, setsid
succeeds), the fork happens, and the child calls setsid and closes the
standard descriptors. -/
theorem daemonize_iff_flag_witness :
    Event.forkCall ∈ (mainRun daemonEnv).1 ∧
    Event.setsidCall ∈ (mainRun daemonEnv).1 ∧
    Event.closeStdFds ∈ (mainRun daemonEnv).1 :=
  ⟨(daemonize_iff_flag daemonEnv {} daemonConfig rfl rfl rfl).1.mpr rfl,
   (daemonize_iff_flag daemonEnv {} daemonConfig rfl rfl rfl).2.2.2.2.1 rfl rfl rfl⟩

/-- C2: the exit code is 0 whenever the pipeline is reached and runs to
completion; a configuration-load failure prints a diagnostic and exits 1
before any pipeline component is constructed; a storage-open failure logs a
diagnostic and exits 1 before any pipeline component is constructed. -/
theorem exit_codes_startup :
    ∀ env : Env,
      (Event.syncStart ∈ (mainRun env).1 → (mainRun env).2 = 0) ∧
      (∀ opts msg, parseCommandLineOptions env.args = .ok opts →
        opts.show_usage = false → env.configLoad = .error msg →
        (mainRun env).2 = 1 ∧ Event.printConfigLoadError msg ∈ (mainRun env).1 ∧
        Event.constructWriter ∉ (mainRun env).1 ∧ Event.constructParser ∉ (mainRun env).1 ∧
        Event.constructSync ∉ (mainRun env).1 ∧ Event.syncStart ∉ (mainRun env).1) ∧
      (∀ opts config msg, parseCommandLineOptions env.args = .ok opts →
        opts.show_usage = false → env.configLoad = .ok config →
        env.openResult = .error msg →
        (config.daemonize = false ∨ (env.forkResult = .child ∧ env.setsidOk = true)) →
        (mainRun env).2 = 1 ∧
        Event.logError ("Failed to open: " ++ msg) ∈ (mainRun env).1 ∧
        Event.constructWriter ∉ (mainRun env).1 ∧ Event.constructParser ∉ (mainRun env).1 ∧
        Event.constructSync ∉ (mainRun env).1 ∧ Event.syncStart ∉ (mainRun env).1) := by
  intro env
  refine ⟨?_, ?_, ?_⟩
  · rcases hp : parseCommandLineOptions env.args with pe | opts
    · cases pe <;> simp [mainRun, mainBody, hp, preEvents]
    · by_cases hu : opts.show_usage
      · simp [mainRun, mainBody, hp, hu, preEvents]
      · rcases hc : env.configLoad with msg | config
        · simp [mainRun, mainBody, hp, hu, hc, preEvents]
        · cases hd : config.daemonize
          · rcases ho : env.openResult with msg | u <;>
              simp [mainRun, mainBody, hp, hu, hc, hd, ho, preEvents]
          · cases hf : env.forkResult
            · simp [mainRun, mainBody, hp, hu, hc, hd, hf, daemonizeRun, preEvents]
            · simp [mainRun, mainBody, hp, hu, hc, hd, hf, daemonizeRun, preEvents]
            · cases hs : env.setsidOk
              · simp [mainRun, mainBody, hp, hu, hc, hd, hf, hs, daemonizeRun, preEvents]
              · rcases ho : env.openResult with msg | u <;>
                  simp [mainRun, mainBody, hp, hu, hc, hd, hf, hs, ho, daemonizeRun, preEvents]
  · intro opts msg hp hu hc
    simp [mainRun, mainBody, hp, hu, hc, preEvents]
  · intro opts config msg hp hu hc ho hcase
    rcases hcase with hd | ⟨hf, hs⟩
    · simp [mainRun, mainBody, hp, hu, hc, hd, ho, preEvents]
    · cases hd : config.daemonize
      · simp [mainRun, mainBody, hp, hu, hc, hd, ho, preEvents]
      · simp [mainRun, mainBody, hp, hu, hc, hd, hf, hs, ho, daemonizeRun, preEvents]

/-- C2 witness: exit code 0 in the clean environment; exit code 1 with the
diagnostic when the configuration fails to load; exit code 1 with the log
message when the storage engine cannot be opened. -/
theorem exit_codes_startup_witness :
    (mainRun cleanEnv).2 = 0 ∧
    ((mainRun badConfEnv).2 = 1 ∧
      Event.printConfigLoadError "no such file" ∈ (mainRun badConfEnv).1) ∧
    ((mainRun badOpenEnv).2 = 1 ∧
      Event.logError ("Failed to open: " ++ "IO error") ∈ (mainRun badOpenEnv).1) :=
  ⟨(exit_codes_startup cleanEnv).1 (by decide),
   ⟨((exit_codes_startup badConfEnv).2.1 {} "no such file" rfl rfl rfl).1,
    ((exit_codes_startup badConfEnv).2.1 {} "no such file" rfl rfl rfl).2.1⟩,
   ⟨((exit_codes_startup badOpenEnv).2.2 {} sampleConfig "IO error" rfl rfl rfl rfl
      (Or.inl rfl)).1,
    ((exit_codes_startup badOpenEnv).2.2 {} sampleConfig "IO error" rfl rfl rfl rfl
      (Or.inl rfl)).2.1⟩⟩

/-- Helper: an invocation whose getopt stream contains an unrecognized option
never returns from the option loop; it exits through `usage()` (exit 0) or an
earlier `-v` (exit 0). -/
theorem parseLoop_unrecognized_exits (args : List GetoptResult) :
    ∀ opts : Options, GetoptResult.unrecognized ∈ args →
      parseLoop args opts = .error .usageExit ∨
      parseLoop args opts = .error .versionExit := by
  induction args with
  | nil => intro opts h; cases h
  | cons a rest ih =>
    intro opts h
    cases a with
    | optC s => exact ih _ (by simpa using h)
    | optP s => exact ih _ (by simpa using h)
    | optH => exact ih _ (by simpa using h)
    | optV => exact Or.inr rfl
    | unrecognized => exact Or.inl rfl

/-- C4 counterexample: the claim "an unrecognized command-line option makes
the process exit non-zero" is false — on `-x` the code calls `usage()`,
which prints the usage text and calls `exit(0)`. -/
theorem unrecognized_option_nonzero_exit_counterexample :
    badOptEnv.args = [GetoptResult.unrecognized] ∧
    Event.printUsage ∈ (mainRun badOptEnv).1 ∧
    (mainRun badOptEnv).2 = 0 :=
  ⟨rfl, by decide, rfl⟩

/-- C4 amended: for every invocation with an unrecognized command-line
option, the process exits with code 0 (through `usage()`, or through an
earlier `-v`), never reaching the configuration load. -/
theorem unrecognized_option_exits_zero :
    ∀ env : Env, GetoptResult.unrecognized ∈ env.args →
      (mainRun env).2 = 0 ∧ Event.loadConfig ({} : Options).conf_file ∉ (mainRun env).1 ∧
      Event.syncStart ∉ (mainRun env).1 := by
  intro env h
  rcases parseLoop_unrecognized_exits env.args {} h with hp | hp <;>
    simp [mainRun, mainBody, parseCommandLineOptions, hp, preEvents]

/-- C4 amended witness: the concrete environment invoked with one
unrecognized option exits 0. -/
theorem unrecognized_option_exits_zero_witness :
    (mainRun badOptEnv).2 = 0 :=
  (unrecognized_option_exits_zero badOptEnv (by simp [badOptEnv])).1

/-- Helper for the resume model: if every element of a list except possibly
its last fails the filter predicate, the filtered list has at most one
element. -/
theorem filter_length_le_one_of_init_false {α : Type} (p : α → Bool) :
    ∀ l : List α, (∀ i a, i + 1 < l.length → l[i]? = some a → p a = false) →
      (l.filter p).length ≤ 1 := by
  intro l
  induction l with
  | nil => intro _; simp
  | cons a t ih =>
    intro h
    cases t with
    | nil => by_cases hp : p a <;> simp [List.filter_cons, hp]
    | cons b t' =>
      have ha : p a = false := h 0 a (by simp) rfl
      have ht := ih (fun i x hi hx =>
        h (i + 1) x (by simpa using Nat.succ_lt_succ hi) (by simpa using hx))
      simpa [List.filter_cons, ha] using ht

/-- C1 (modelled from the spec; the Sync orchestrator's source is not among
the sources at hand): with `k` applied batches forming a prefix of the log,
under the checkpoint protocol invariant — every applied batch except
possibly the last has sequence ≤ S (the checkpoint is persisted after each
fully applied batch, so at most the crash-window batch is ahead of it), and
no unapplied batch has sequence ≤ S — resuming from checkpoint `S`
(1) delivers only batches with sequence > S, (2) re-delivers at most one
already-applied batch, and (3) never skips the first unapplied batch. -/
theorem resume_redelivers_at_most_one_never_skips :
    ∀ (log : List RawWriteBatch) (k S : Nat),
      (∀ i b, i + 1 < k → log[i]? = some b → b.sequence ≤ S) →
      (∀ i b, k ≤ i → log[i]? = some b → S < b.sequence) →
      (∀ b ∈ resumeDeliver S log, S < b.sequence) ∧
      (redelivered S k log).length ≤ 1 ∧
      (∀ b, log[k]? = some b → b ∈ resumeDeliver S log) := by
  intro log k S hApplied hUnapplied
  refine ⟨?_, ?_, ?_⟩
  · intro b hb
    exact of_decide_eq_true (List.mem_filter.mp hb).2
  · apply filter_length_le_one_of_init_false
    intro i a hi ha
    have hlen : (log.take k).length = min k log.length := List.length_take k log
    have hik : i + 1 < k := by omega
    have ha' : log[i]? = some a := by
      rw [List.getElem?_take_of_lt (by omega)] at ha
      exact ha
    exact decide_eq_false (Nat.not_lt.mpr (hApplied i a hik ha'))
  · intro b hb
    exact List.mem_filter.mpr
      ⟨List.getElem?_mem hb, decide_eq_true (hUnapplied k b le_rfl hb)⟩

/-- C1 witness: log with batches at sequences 5, 7, 9; two batches applied at
crash time, checkpoint persisted at 5 (crash before persisting 7): delivery
is only of sequences > 5, exactly one applied batch (sequence 7) is
re-delivered, and the first unapplied batch (sequence 9) is delivered. -/
theorem resume_redelivers_at_most_one_never_skips_witness :
    (redelivered 5 2 sampleLog).length ≤ 1 ∧
    (⟨9, ["DEL a"]⟩ : RawWriteBatch) ∈ resumeDeliver 5 sampleLog ∧
    5 < (⟨7, ["SET b 2"]⟩ : RawWriteBatch).sequence :=
  have h := resume_redelivers_at_most_one_never_skips sampleLog 2 5
    (by
      intro i b hi hb
      have hi0 : i = 0 := by omega
      subst hi0
      simp only [sampleLog, List.getElem?_cons_zero, Option.some.injEq] at hb
      subst hb
      decide)
    (by
      intro i b hi hb
      match i, hi with
      | 2, _ =>
        simp only [sampleLog, List.getElem?_cons_succ, List.getElem?_cons_zero,
          Option.some.injEq] at hb
        subst hb
        decide
      | n + 3, _ =>
        simp [sampleLog] at hb)
  ⟨h.2.1, h.2.2 ⟨9, ["DEL a"]⟩ rfl, h.1 ⟨7, ["SET b 2"]⟩ (by decide)⟩

/-- C8 witness: instantiated in the clean environment. -/
theorem sigpipe_ignored_before_connection_work_witness :
    ∃ l₁ l₂,
      (mainRun cleanEnv).1 = l₁ ++ Event.setSignal .sigpipe .ignore :: l₂ ∧
      Event.constructWriter ∉ l₁ ∧ Event.syncStart ∉ l₁ ∧ Event.openForReadOnly ∉ l₁ :=
  sigpipe_ignored_before_connection_work cleanEnv

/-- C9 witness: instantiated in the clean environment at the default pid
file path. -/
theorem pid_file_never_created_witness :
    Event.createPid "/var/run/kvrocks2redis.pid" ∉ (mainRun cleanEnv).1 ∧
    HEvent.removePid "/var/run/kvrocks2redis.pid"
      ∈ hupHandlerRun false "/var/run/kvrocks2redis.pid" :=
  pid_file_never_created cleanEnv "/var/run/kvrocks2redis.pid"

/-- C10 witness: a signal before the closure is assigned does nothing, on a
concrete state. -/
theorem signal_handler_noop_before_assignment_witness :
    signalHandlerRun false false "/var/run/kvrocks2redis.pid" = [] :=
  signal_handler_noop_before_assignment false "/var/run/kvrocks2redis.pid"
